import Mathlib

/-!
Shallow embedding of the NOVEM desktop application shell
(`novem-desktop/src-tauri/src`): the process supervisor
(`python_engine.rs`), the path resolvers (`main.rs`, `compute.rs`),
the Tauri command layer (`commands/mod.rs`) and the local cache
(`database.rs`).  External effects (the network, the filesystem,
process spawning) are passed in as explicit oracles; machine integers
become `Nat`/`Int`; fallible Rust functions return `Except`.
-/

namespace Novem

/-- JSON values, the model of `serde_json::Value`.  Numbers are modelled
as `Int` (the source uses `f64`; no claim exercises non-integral
arithmetic on them). -/
inductive Json where
  | null : Json
  | bool (b : Bool) : Json
  | num (n : Int) : Json
  | str (s : String) : Json
  | arr (xs : List Json) : Json
  | obj (fields : List (String × Json)) : Json
deriving Repr

namespace Json

/-- `Value::get(key)` on a JSON value: field lookup on objects, `None`
otherwise. -/
def get (j : Json) (key : String) : Option Json :=
  match j with
  | .obj fields => (fields.find? (fun kv => kv.1 == key)).map (·.2)
  | _ => none

/-- `Value::as_str()`. -/
def asStr : Json → Option String
  | .str s => some s
  | _ => none

/-- `Value::as_bool()`. -/
def asBool : Json → Option Bool
  | .bool b => some b
  | _ => none

/-- `Value::as_f64()` (numbers modelled as `Int`). -/
def asNum : Json → Option Int
  | .num n => some n
  | _ => none

/-- `Value::as_object()`: `some` exactly on objects. -/
def asObject : Json → Option (List (String × Json))
  | .obj fields => some fields
  | _ => none

end Json

/-- An HTTP response as the command layer observes it: the status code,
the result of parsing the body as JSON (`resp.json()`; `error e` when
the body is unparseable, carrying serde's message), and the result of
decoding the body as text (`resp.text()`). -/
structure HttpResponse where
  status : Nat
  jsonBody : Except String Json
  textBody : Except String String

/-- The outcome of `send()`: either a transport failure with its
message, or a response. -/
abbrev HttpOutcome := Except String HttpResponse

/-- `StatusCode::is_success()`: 2xx. -/
def statusIsSuccess (s : Nat) : Bool := 200 ≤ s && s < 300

/-- The canonical reason phrase of a status code, as appended by the
`Display` of `http::StatusCode` (`"<number> <reason>"`); unknown codes
display the placeholder used by the `http` crate. -/
def canonicalReason (s : Nat) : String :=
  match s with
  | 200 => "OK"
  | 201 => "Created"
  | 204 => "No Content"
  | 400 => "Bad Request"
  | 401 => "Unauthorized"
  | 403 => "Forbidden"
  | 404 => "Not Found"
  | 422 => "Unprocessable Entity"
  | 500 => "Internal Server Error"
  | 502 => "Bad Gateway"
  | 503 => "Service Unavailable"
  | _ => "<unknown status code>"

/-- `format!("{}", status)` for a `reqwest::StatusCode`. -/
def statusDisplay (s : Nat) : String :=
  toString s ++ " " ++ canonicalReason s

/-! ## The supervisor (`python_engine.rs`) -/

/-- The fields of `EmbeddedPythonEngine`: the guarded child-process
slot (a pid stands in for the `Child` handle), the port, and the
remembered compute-engine directory. -/
structure EmbeddedPythonEngine where
  process : Option Nat
  port : Nat
  compute_engine_path : Option String
deriving Repr, DecidableEq

namespace EmbeddedPythonEngine

/-- `EmbeddedPythonEngine::new()`. -/
def new : EmbeddedPythonEngine :=
  { process := none, port := 8765, compute_engine_path := none }

/-- `get_port()`. -/
def get_port (s : EmbeddedPythonEngine) : Nat := s.port

end EmbeddedPythonEngine

/-- The base URL built by `call_compute_engine`
(`format!("http://127.0.0.1:8001{}", endpoint)`). -/
def proxyUrl (endpoint : String) : String :=
  "http://127.0.0.1:8001" ++ endpoint

/-! ## The command layer (`commands/mod.rs`) -/

/-- `str::to_uppercase()` (the ASCII-relevant part): uppercase every
character. -/
def toUpperStr (s : String) : String := ⟨s.data.map Char.toUpper⟩

/-- The network oracle: what `send()` yields for a request, given the
url, the canonical method, and the JSON payload attached (if any). -/
abbrev Network := String → String → Option Json → HttpOutcome

/-- The response handling of `call_compute_engine` (its final `match
response`): success status means parse the JSON body, failure means
report status and, best effort, the body text. -/
def handleProxyResponse (response : HttpOutcome) : Except String Json :=
  match response with
  | .ok resp =>
    if statusIsSuccess resp.status then
      match resp.jsonBody with
      | .ok json => .ok json
      | .error e => .error ("Failed to parse response: " ++ e)
    else
      match resp.textBody with
      | .ok text =>
          .error ("Request failed with status " ++ statusDisplay resp.status ++ ": " ++ text)
      | .error _ => .error ("Request failed with status: " ++ statusDisplay resp.status)
  | .error e => .error ("Request failed: " ++ e)

/-- `call_compute_engine(endpoint, method, data)`.  Returns the
command's result together with the number of network calls issued.
GET and DELETE never attach the payload; POST, PUT and PATCH attach it
when present (the oracle receives the attached payload). -/
def call_compute_engine (net : Network) (endpoint method : String) (data : Option Json) :
    Except String Json × Nat :=
  let url := proxyUrl endpoint
  match toUpperStr method with
  | "GET" => (handleProxyResponse (net url "GET" none), 1)
  | "POST" => (handleProxyResponse (net url "POST" data), 1)
  | "PUT" => (handleProxyResponse (net url "PUT" data), 1)
  | "DELETE" => (handleProxyResponse (net url "DELETE" none), 1)
  | "PATCH" => (handleProxyResponse (net url "PATCH" data), 1)
  | _ => (.error ("Invalid HTTP method: " ++ method), 0)

/-- The `HealthResponse` DTO. -/
structure HealthResponse where
  status : String
  service : Option String
  timestamp : Option String
  database : Option String
deriving Repr, DecidableEq

/-- `check_compute_engine_health()`, from the point where `send()` has
produced its outcome (the probed URL is `http://127.0.0.1:8001/health`). -/
def check_compute_engine_health (outcome : HttpOutcome) : Except String HealthResponse :=
  match outcome with
  | .ok response =>
    if statusIsSuccess response.status then
      match response.jsonBody with
      | .ok data =>
          .ok { status := ((data.get "status").bind Json.asStr).getD "unknown"
                service := (data.get "service").bind Json.asStr
                timestamp := (data.get "timestamp").bind Json.asStr
                database := ((data.get "duckdb_connected").bind Json.asBool).map
                  (fun b => if b then "connected" else "disconnected") }
      | .error e => .error ("Failed to parse response: " ++ e)
    else .error ("Compute engine returned status: " ++ statusDisplay response.status)
  | .error e => .error ("Compute engine unreachable: " ++ e)

/-- `check_backend_health()`, from the point where `send()` has
produced its outcome (the probed URL is
`http://localhost:8000/api/health/`).  Note the parse-failure arm of
the success branch: it substitutes a hard-coded healthy default. -/
def check_backend_health (outcome : HttpOutcome) : Except String HealthResponse :=
  match outcome with
  | .ok response =>
    if statusIsSuccess response.status then
      match response.jsonBody with
      | .ok data =>
          .ok { status := ((data.get "status").bind Json.asStr).getD "unknown"
                service := (data.get "service").bind Json.asStr
                timestamp := (data.get "timestamp").bind Json.asStr
                database := (data.get "database").bind Json.asStr }
      | .error _ =>
          .ok { status := "healthy", service := some "novem-backend"
                timestamp := none, database := none }
    else .error ("Backend returned status: " ++ statusDisplay response.status)
  | .error e => .error ("Backend unreachable: " ++ e)

/-- The `SystemResources` DTO (numbers modelled as `Int`, `f64` in the
source). -/
structure SystemResources where
  cpu_percent : Int
  memory_percent : Int
  memory_available_gb : Int
  memory_total_gb : Int
  disk_available_gb : Int
  disk_total_gb : Int
deriving Repr, DecidableEq

/-- `Map::get` on a JSON object's field list. -/
def mapGet (fields : List (String × Json)) (key : String) : Option Json :=
  (fields.find? (fun kv => kv.1 == key)).map (·.2)

/-- `get_system_resources()`, from the point where `send()` has
produced its outcome (the probed URL is
`http://127.0.0.1:8001/health/system`).  Missing nested objects or
numeric fields fall back to zero (`unwrap_or(0.0)`). -/
def get_system_resources (outcome : HttpOutcome) : Except String SystemResources :=
  match outcome with
  | .ok response =>
    if statusIsSuccess response.status then
      match response.jsonBody with
      | .ok data =>
          let cpu := (data.get "cpu").bind Json.asObject
          let memory := (data.get "memory").bind Json.asObject
          let disk := (data.get "disk").bind Json.asObject
          let cpu_percent := ((cpu.bind (mapGet · "percent")).bind Json.asNum).getD 0
          let memory_percent := ((memory.bind (mapGet · "percent")).bind Json.asNum).getD 0
          let memory_available_gb :=
            ((memory.bind (mapGet · "available_gb")).bind Json.asNum).getD 0
          let memory_total_gb := ((memory.bind (mapGet · "limit_gb")).bind Json.asNum).getD 0
          let disk_available_gb := ((disk.bind (mapGet · "available_gb")).bind Json.asNum).getD 0
          let disk_used_gb := ((disk.bind (mapGet · "used_gb")).bind Json.asNum).getD 0
          let disk_total_gb := disk_used_gb + disk_available_gb
          .ok { cpu_percent, memory_percent, memory_available_gb, memory_total_gb
                disk_available_gb, disk_total_gb }
      | .error e => .error ("Failed to parse system resources: " ++ e)
    else .error ("System resources returned status: " ++ statusDisplay response.status)
  | .error e => .error ("Failed to get system resources: " ++ e)

/-- `Path::join` on the string model of paths. -/
def pathJoinStr (p : String) (c : String) : String := p ++ "/" ++ c

/-! ## Supervisor lifecycle (`python_engine.rs`) -/

/-- `check_health()` in `python_engine.rs`, from the point where
`send()` against `http://127.0.0.1:<port>/health` has produced its
outcome: a 2xx status is healthy, any other status unhealthy, and a
transport failure maps to `Ok(false)`, never to an error.  (The only
`Err` exit of the source function is `Client::builder().build()?`,
which precedes the network and is not a transport failure.) -/
def check_health (outcome : HttpOutcome) : Except String Bool :=
  match outcome with
  | .ok response => .ok (statusIsSuccess response.status)
  | .error _ => .ok false

/-- The timeout message of the readiness loop in
`start_fastapi_server`. -/
def timeout30Msg : String :=
  "FastAPI server failed to start within 30 seconds. Check logs above for errors."

/-- The readiness loop of `start_fastapi_server`, with time
discretised to whole seconds (the loop sleeps a constant 1000 ms
between probes; `elapsed + 1` is that step — the interval never
grows).  Each iteration first compares the elapsed time with the
30-second timeout (`start_time.elapsed() > timeout`), then probes
once.  `health t = true` states that the probe at elapsed second `t`
reported `Ok(true)`; the `Ok(false)` and `Err` probe outcomes are
treated identically by the loop (retry), so the trace needs only a
`Bool`.  `fuel` bounds the recursion; exhausted fuel also reports the
timeout message, and with fuel 32 the bound is never the reason the
loop ends. -/
def pollFrom (health : Nat → Bool) : Nat → Nat → Except String Nat
  | 0, _ => .error timeout30Msg
  | fuel + 1, elapsed =>
    if 30 < elapsed then .error timeout30Msg
    else if health elapsed then .ok elapsed
    else pollFrom health fuel (elapsed + 1)

/-- The readiness wait of `start_fastapi_server`: poll from elapsed
second 0; on success, return the second at which a probe first
reported healthy. -/
def readinessPoll (health : Nat → Bool) : Except String Nat :=
  pollFrom health 32 0

/-- The environment `start_fastapi_server` runs against: whether
`<dir>/main.py` exists, what `spawn()` yields (a pid, or the spawn
error), and the readiness-probe trace. -/
structure StartEnv where
  mainPyExists : Bool
  spawnResult : Except String Nat
  health : Nat → Bool

/-- `start_fastapi_server(compute_engine_dir)`: remember the
directory, require `main.py`, spawn (storing the child handle in the
guarded slot), then block in the readiness loop.  On readiness
timeout the function returns the timeout error with the child handle
still stored — no arm of the source clears the slot.
(`find_python_executable` sits between the `main.py` check and the
spawn but has no `Err` exit, so it does not appear.) -/
def start_fastapi_server (s : EmbeddedPythonEngine) (dir : String) (env : StartEnv) :
    Except String Unit × EmbeddedPythonEngine :=
  let s1 := { s with compute_engine_path := some dir }
  if env.mainPyExists then
    match env.spawnResult with
    | .ok pid =>
      let s2 := { s1 with process := some pid }
      match readinessPoll env.health with
      | .ok _ => (.ok (), s2)
      | .error e => (.error e, s2)
    | .error e => (.error ("Failed to spawn FastAPI process: " ++ e), s1)
  else
    (.error ("main.py not found at " ++ pathJoinStr dir "main.py"), s1)

/-- `stop()`: `take()` the held handle out of the guarded slot; when
one was held, kill and wait for it (failures of those two calls are
collapsed into `killOk`).  Because `take()` precedes the kill, the
slot is empty afterwards in every case. -/
def stop (s : EmbeddedPythonEngine) (killOk : Bool) :
    Except String Unit × EmbeddedPythonEngine :=
  match s.process with
  | none => (.ok (), s)
  | some _ =>
    if killOk then (.ok (), { s with process := none })
    else (.error "Failed to kill FastAPI process", { s with process := none })

/-! ## Path resolution (`main.rs` and `compute.rs`) -/

/-- A candidate directory matches when it exists and contains the
entry point: `p.exists() && p.join("main.py").exists()`. -/
def entryOk (fs : String → Bool) (p : String) : Bool :=
  fs p && fs (pathJoinStr p "main.py")

/-- `find_compute_engine_dir()` in `main.rs`.  `cwdGP` collapses
`std::env::current_dir().ok()?.parent()?.parent()?`: `none` when the
working directory is unavailable or lacks a grandparent.  `exeDir`
collapses `std::env::current_exe().ok()?.parent()?` likewise.  The
`?` operator returns `none` for the whole resolution at the point the
unavailable component is first needed. -/
def find_compute_engine_dir (cwdGP exeDir : Option String) (fs : String → Bool) :
    Option String :=
  match cwdGP with
  | none => none
  | some gp =>
    let dev_path := pathJoinStr gp "compute_engine"
    if entryOk fs dev_path then some dev_path
    else
      match exeDir with
      | none => none
      | some ed =>
        let prod_path := pathJoinStr ed "compute_engine"
        if entryOk fs prod_path then some prod_path
        else
          let resources_path := pathJoinStr (pathJoinStr ed "resources") "compute_engine"
          if entryOk fs resources_path then some resources_path
          else none

/-- The candidate loop of `start_compute_engine` in `compute.rs`: the
candidates are `Option` values walked in order; a `None` entry is
skipped by the `if let Some(p)` and the loop continues; the first
candidate that exists and contains `main.py` is returned. -/
def resolveCandidates (fs : String → Bool) : List (Option String) → Option String
  | [] => none
  | none :: rest => resolveCandidates fs rest
  | some p :: rest =>
    if entryOk fs p then some p else resolveCandidates fs rest

/-! ## The local cache (`database.rs`)

The `workspaces` and `projects` tables are modelled as lists of rows.
`upsert_workspace` / `upsert_project` run
`INSERT ... ON CONFLICT(uuid) DO UPDATE SET ...` against a schema with
`id INTEGER PRIMARY KEY` and `uuid TEXT NOT NULL UNIQUE`.  SQLite's
UPSERT resolves a conflict on the named target: when a row with the
incoming `uuid` exists the `DO UPDATE` fires on that row (regardless
of the incoming `id`); otherwise, if the incoming `id` collides with
an existing row, the statement aborts with a primary-key violation;
otherwise the row is inserted. -/

/-- A row of the `workspaces` table. -/
structure Workspace where
  id : Int
  uuid : String
  name : String
  description : Option String
  owner_id : Int
  created_at : String
  updated_at : String
  is_active : Bool
  sync_status : String
  last_synced_at : Option String
deriving Repr, DecidableEq

/-- A row of the `projects` table. -/
structure Project where
  id : Int
  uuid : String
  workspace_id : Int
  name : String
  description : Option String
  owner_id : Int
  created_at : String
  updated_at : String
  is_active : Bool
  sync_status : String
  last_synced_at : Option String
deriving Repr, DecidableEq

/-- The `DO UPDATE SET` list of `upsert_workspace`: name, description,
updated_at, is_active, sync_status, last_synced_at take the excluded
(incoming) values; every other column of the existing row is kept. -/
def applyWorkspaceUpdate (old w : Workspace) : Workspace :=
  { old with
    name := w.name
    description := w.description
    updated_at := w.updated_at
    is_active := w.is_active
    sync_status := w.sync_status
    last_synced_at := w.last_synced_at }

/-- `upsert_workspace(&workspace)`. -/
def upsert_workspace (table : List Workspace) (w : Workspace) :
    Except String (List Workspace) :=
  if table.any (fun r => r.uuid == w.uuid) then
    .ok (table.map (fun r => if r.uuid == w.uuid then applyWorkspaceUpdate r w else r))
  else if table.any (fun r => r.id == w.id) then
    .error "UNIQUE constraint failed: workspaces.id"
  else
    .ok (table ++ [w])

/-- The `DO UPDATE SET` list of `upsert_project`: the same six columns
as for workspaces; `id`, `workspace_id`, `owner_id`, `created_at` of
the existing row are kept. -/
def applyProjectUpdate (old p : Project) : Project :=
  { old with
    name := p.name
    description := p.description
    updated_at := p.updated_at
    is_active := p.is_active
    sync_status := p.sync_status
    last_synced_at := p.last_synced_at }

/-- `upsert_project(&project)`. -/
def upsert_project (table : List Project) (p : Project) :
    Except String (List Project) :=
  if table.any (fun r => r.uuid == p.uuid) then
    .ok (table.map (fun r => if r.uuid == p.uuid then applyProjectUpdate r p else r))
  else if table.any (fun r => r.id == p.id) then
    .error "UNIQUE constraint failed: projects.id"
  else
    .ok (table ++ [p])

/-- The number of rows of a workspace table carrying a given uuid. -/
def countUuid (table : List Workspace) (u : String) : Nat :=
  (table.filter (fun r => r.uuid == u)).length

/-- Uniqueness of uuids across a workspace table (the schema's
`uuid TEXT NOT NULL UNIQUE`). -/
def uuidNodup (table : List Workspace) : Prop :=
  (table.map Workspace.uuid).Nodup

instance (table : List Workspace) : Decidable (uuidNodup table) :=
  List.nodupDecidable _

/-! ## Concrete scenarios used to evaluate the embedding -/

/-- A network oracle that always answers HTTP 200 with JSON `null`. -/
def netOk200 : Network :=
  fun _ _ _ => .ok { status := 200, jsonBody := .ok Json.null, textBody := .ok "" }

/-- A 404 response whose body decodes to `{"detail":"not found"}` and
does not parse as JSON via the consumed-body path. -/
def resp404 : HttpResponse :=
  { status := 404
    jsonBody := .error "error decoding response body"
    textBody := .ok "\x7b\"detail\":\"not found\"\x7d" }

/-- A success response whose body cannot be parsed as JSON. -/
def respBadJson : HttpResponse :=
  { status := 200, jsonBody := .error "expected value at line 1 column 1", textBody := .ok "" }

/-- A start environment where `main.py` exists, the spawn yields pid
42, and no readiness probe ever reports healthy. -/
def envNeverHealthy : StartEnv :=
  { mainPyExists := true, spawnResult := .ok 42, health := fun _ => false }

/-- A probe trace that reports healthy from second 5 onwards. -/
def healthAfter5 : Nat → Bool := fun t => decide (5 ≤ t)

/-- A filesystem where only `/app/compute_engine` (with its
`main.py`) exists. -/
def fsProdOnly : String → Bool :=
  fun p => p == "/app/compute_engine" || p == "/app/compute_engine/main.py"

/-- A filesystem realising the spec's resolver example: candidate `/A`
is missing while `/B` and `/C` exist and contain the entry point. -/
def fsBC : String → Bool :=
  fun p => p == "/B" || p == "/B/main.py" || p == "/C" || p == "/C/main.py"

/-- A concrete workspace row. -/
def wsA : Workspace :=
  { id := 1, uuid := "w1", name := "A", description := none, owner_id := 7
    created_at := "2024-01-01", updated_at := "2024-01-02", is_active := true
    sync_status := "synced", last_synced_at := none }

/-- The same entity as `wsA` re-imported later: same uuid, different
numeric id, new name and timestamp. -/
def wsB : Workspace :=
  { wsA with id := 99, name := "B", updated_at := "2024-02-01" }

/-- A concrete project row. -/
def prA : Project :=
  { id := 1, uuid := "p1", workspace_id := 3, name := "P", description := none
    owner_id := 7, created_at := "2024-01-01", updated_at := "2024-01-02"
    is_active := true, sync_status := "synced", last_synced_at := none }

/-- The same project re-imported: same uuid, different id, new name. -/
def prB : Project :=
  { prA with id := 50, name := "Q", updated_at := "2024-02-01" }

/-! ## C1 — the proxy's URL and the Supervisor's port -/

/-- C1 counterexample: the URL `call_compute_engine` builds for path
`/health` is not built from the port the Supervisor's `get_port()`
reports (8765): the proxy hard-codes 8001. -/
theorem proxyUrl_not_from_supervisor_port :
    proxyUrl "/health" ≠
      "http://127.0.0.1:" ++ toString EmbeddedPythonEngine.new.get_port ++ "/health" := by
  decide

/-- C1 (amended): every network call `call_compute_engine` issues goes
to the constant URL `http://127.0.0.1:8001<path>` — the port is the
literal 8001, fixed independently of the Supervisor, whose
`get_port()` reports 8765. -/
theorem call_compute_engine_fixed_url (net : Network) (endpoint method : String)
    (data : Option Json)
    (h : toUpperStr method ∈ ["GET", "POST", "PUT", "DELETE", "PATCH"]) :
    (∃ sent, call_compute_engine net endpoint method data =
      (handleProxyResponse
        (net ("http://127.0.0.1:8001" ++ endpoint) (toUpperStr method) sent), 1)) ∧
      EmbeddedPythonEngine.new.get_port = 8765 := by
  refine ⟨?_, rfl⟩
  simp only [List.mem_cons, List.not_mem_nil, or_false] at h
  unfold call_compute_engine
  rcases h with h | h | h | h | h <;> rw [h] <;>
    first
      | exact ⟨none, rfl⟩
      | exact ⟨data, rfl⟩

/-- C1 witness: the amended statement evaluated for a GET of
`/health` against the always-200 oracle. -/
theorem call_compute_engine_fixed_url_witness :
    (∃ sent, call_compute_engine netOk200 "/health" "GET" none =
      (handleProxyResponse
        (netOk200 ("http://127.0.0.1:8001" ++ "/health") (toUpperStr "GET") sent), 1)) ∧
      EmbeddedPythonEngine.new.get_port = 8765 :=
  call_compute_engine_fixed_url netOk200 "/health" "GET" none (by decide)

/-! ## C6 — invalid methods -/

/-- C6 counterexample: the method string `"get"` lies outside the
enumerated set `{GET, POST, PUT, DELETE, PATCH}`, yet the call issues
one network call and returns the success result instead of an
invalid-method error. -/
theorem call_compute_engine_lowercase_get :
    "get" ∉ ["GET", "POST", "PUT", "DELETE", "PATCH"] ∧
      (call_compute_engine netOk200 "/x" "get" none).2 = 1 ∧
      (call_compute_engine netOk200 "/x" "get" none).1 = .ok Json.null :=
  ⟨by decide, rfl, rfl⟩

/-- C6 (amended): method matching is case-insensitive
(`to_uppercase` first); for every method string whose uppercase form
lies outside `{GET, POST, PUT, DELETE, PATCH}` the call returns the
descriptive invalid-method error immediately and issues zero network
calls. -/
theorem call_compute_engine_invalid_method (net : Network) (endpoint method : String)
    (data : Option Json)
    (h : toUpperStr method ∉ ["GET", "POST", "PUT", "DELETE", "PATCH"]) :
    call_compute_engine net endpoint method data =
      (.error ("Invalid HTTP method: " ++ method), 0) := by
  simp only [List.mem_cons, List.not_mem_nil, or_false, not_or] at h
  obtain ⟨h1, h2, h3, h4, h5⟩ := h
  unfold call_compute_engine
  split <;> simp_all

/-- C6 witness: the amended statement evaluated at method `TRACE`. -/
theorem call_compute_engine_invalid_method_witness :
    call_compute_engine netOk200 "/x" "TRACE" none =
      (.error ("Invalid HTTP method: " ++ "TRACE"), 0) :=
  call_compute_engine_invalid_method netOk200 "/x" "TRACE" none (by decide)

/-! ## C8 — health probes and transport failure -/

/-- C8: `check_health()` never fails with an error — every outcome
yields `Ok`, and a transport-level failure (whatever its message)
yields the value `false`. -/
theorem check_health_never_errors :
    (∀ outcome : HttpOutcome, ∃ b, check_health outcome = .ok b) ∧
      ∀ e : String, check_health (.error e) = .ok false := by
  constructor
  · intro outcome
    cases outcome with
    | ok r => exact ⟨statusIsSuccess r.status, rfl⟩
    | error e => exact ⟨false, rfl⟩
  · intro e
    rfl

/-! ## C7 — non-success statuses -/

/-- Reduction of `handleProxyResponse` on a received response. -/
theorem handleProxyResponse_ok (resp : HttpResponse) :
    handleProxyResponse (.ok resp) =
      if statusIsSuccess resp.status then
        match resp.jsonBody with
        | .ok json => .ok json
        | .error e => .error ("Failed to parse response: " ++ e)
      else
        match resp.textBody with
        | .ok text =>
            .error ("Request failed with status " ++ statusDisplay resp.status ++ ": " ++ text)
        | .error _ => .error ("Request failed with status: " ++ statusDisplay resp.status) :=
  rfl

/-- C7: for every proxy call answered with a non-success status, the
call fails with an error string containing the numeric status;
whenever the body decodes, the error also contains the body text, and
when it does not, the error is the status-only message. -/
theorem call_compute_engine_status_error (endpoint method : String) (data : Option Json)
    (resp : HttpResponse)
    (hm : toUpperStr method ∈ ["GET", "POST", "PUT", "DELETE", "PATCH"])
    (hs : statusIsSuccess resp.status = false) :
    ∃ e, (call_compute_engine (fun _ _ _ => .ok resp) endpoint method data).1 = .error e ∧
      (∃ a b, e = a ++ toString resp.status ++ b) ∧
      (∀ text, resp.textBody = .ok text → ∃ a b, e = a ++ text ++ b) ∧
      (∀ msg, resp.textBody = .error msg →
        e = "Request failed with status: " ++ statusDisplay resp.status) := by
  have hcall :
      (call_compute_engine (fun _ _ _ => .ok resp) endpoint method data).1 =
        handleProxyResponse (.ok resp) := by
    simp only [List.mem_cons, List.not_mem_nil, or_false] at hm
    unfold call_compute_engine
    rcases hm with h | h | h | h | h <;> rw [h] <;> rfl
  rw [hcall, handleProxyResponse_ok, hs]
  simp only [Bool.false_eq_true, if_false]
  cases htb : resp.textBody with
  | ok text =>
    refine ⟨_, rfl, ?_, ?_, ?_⟩
    · refine ⟨"Request failed with status ",
        " " ++ canonicalReason resp.status ++ (": " ++ text), ?_⟩
      simp [statusDisplay, String.append_assoc]
    · intro t ht
      cases ht
      exact ⟨"Request failed with status " ++ statusDisplay resp.status ++ ": ", "",
        by simp [String.append_assoc]⟩
    · intro msg hmsg
      cases hmsg
  | error msg =>
    refine ⟨_, rfl, ?_, ?_, ?_⟩
    · refine ⟨"Request failed with status: ", " " ++ canonicalReason resp.status, ?_⟩
      simp [statusDisplay, String.append_assoc]
    · intro t ht
      cases ht
    · intro m hm2
      rfl

/-- C7 witness: the statement evaluated on a 404 whose body is
`{"detail":"not found"}`. -/
theorem call_compute_engine_status_error_witness :
    ∃ e, (call_compute_engine (fun _ _ _ => .ok resp404) "/x" "GET" none).1 = .error e ∧
      (∃ a b, e = a ++ toString resp404.status ++ b) ∧
      (∀ text, resp404.textBody = .ok text → ∃ a b, e = a ++ text ++ b) ∧
      (∀ msg, resp404.textBody = .error msg →
        e = "Request failed with status: " ++ statusDisplay resp404.status) :=
  call_compute_engine_status_error "/x" "GET" none resp404 (by decide) (by decide)

/-! ## C4 — unparseable success bodies -/

/-- C4 counterexample: `check_backend_health` receives a success
status whose body does not parse as JSON and silently substitutes a
hard-coded healthy default instead of returning a parse error. -/
theorem check_backend_health_silent_default :
    check_backend_health (.ok respBadJson) =
      .ok { status := "healthy", service := some "novem-backend"
            timestamp := none, database := none } := rfl

/-- C4 (amended): on a success status whose body cannot be parsed as
JSON, `check_compute_engine_health`, `get_system_resources` and
`call_compute_engine` return a parse error, but `check_backend_health`
silently substitutes a default healthy response. -/
theorem commands_unparseable_success (status : Nat) (jerr : String)
    (tb : Except String String) (hs : statusIsSuccess status = true) :
    check_compute_engine_health (.ok ⟨status, .error jerr, tb⟩) =
        .error ("Failed to parse response: " ++ jerr) ∧
      get_system_resources (.ok ⟨status, .error jerr, tb⟩) =
        .error ("Failed to parse system resources: " ++ jerr) ∧
      (call_compute_engine (fun _ _ _ => .ok ⟨status, .error jerr, tb⟩) "/x" "GET" none).1 =
        .error ("Failed to parse response: " ++ jerr) ∧
      check_backend_health (.ok ⟨status, .error jerr, tb⟩) =
        .ok { status := "healthy", service := some "novem-backend"
              timestamp := none, database := none } := by
  refine ⟨?_, ?_, ?_, ?_⟩
  · show (if statusIsSuccess status then _ else _) = _
    rw [hs]
    rfl
  · show (if statusIsSuccess status then _ else _) = _
    rw [hs]
    rfl
  · have hcall :
        (call_compute_engine (fun _ _ _ => .ok (⟨status, .error jerr, tb⟩ : HttpResponse))
            "/x" "GET" none).1 =
          handleProxyResponse (.ok ⟨status, .error jerr, tb⟩) := rfl
    rw [hcall, handleProxyResponse_ok, hs]
    rfl
  · show (if statusIsSuccess status then _ else _) = _
    rw [hs]
    rfl

/-- C4 witness: the amended statement evaluated on a 200 response
whose body is not JSON. -/
theorem commands_unparseable_success_witness :
    check_compute_engine_health (.ok ⟨200, .error "bad json", .ok ""⟩) =
        .error ("Failed to parse response: " ++ "bad json") ∧
      get_system_resources (.ok ⟨200, .error "bad json", .ok ""⟩) =
        .error ("Failed to parse system resources: " ++ "bad json") ∧
      (call_compute_engine (fun _ _ _ => .ok ⟨200, .error "bad json", .ok ""⟩)
          "/x" "GET" none).1 =
        .error ("Failed to parse response: " ++ "bad json") ∧
      check_backend_health (.ok ⟨200, .error "bad json", .ok ""⟩) =
        .ok { status := "healthy", service := some "novem-backend"
              timestamp := none, database := none } :=
  commands_unparseable_success 200 "bad json" (.ok "") (by decide)

/-! ## C5 — the readiness loop -/

/-- When no probe from `elapsed` through second 30 reports healthy,
the loop ends with the timeout error (for every fuel). -/
theorem pollFrom_error_of_never (health : Nat → Bool) (fuel elapsed : Nat)
    (h : ∀ s, elapsed ≤ s → s ≤ 30 → health s = false) :
    pollFrom health fuel elapsed = .error timeout30Msg := by
  induction fuel generalizing elapsed with
  | zero => rfl
  | succ n ih =>
    unfold pollFrom
    by_cases h30 : 30 < elapsed
    · rw [if_pos h30]
    · rw [if_neg h30, h elapsed le_rfl (by omega)]
      simp only [Bool.false_eq_true, if_false]
      exact ih (elapsed + 1) (fun s hs hs30 => h s (by omega) hs30)

/-- When second `t` (within the window and the fuel) is the first
probe from `elapsed` onwards to report healthy, the loop succeeds at
`t`. -/
theorem pollFrom_ok_first (health : Nat → Bool) (t fuel elapsed : Nat)
    (hle : elapsed ≤ t) (ht : t ≤ 30) (hh : health t = true)
    (hmin : ∀ s, elapsed ≤ s → s < t → health s = false)
    (hfuel : t - elapsed < fuel) :
    pollFrom health fuel elapsed = .ok t := by
  induction fuel generalizing elapsed with
  | zero => omega
  | succ n ih =>
    unfold pollFrom
    rw [if_neg (by omega)]
    by_cases he : elapsed = t
    · subst he
      rw [hh]
      simp
    · have hlt : elapsed < t := lt_of_le_of_ne hle he
      rw [hmin elapsed le_rfl hlt]
      simp only [Bool.false_eq_true, if_false]
      exact ih (elapsed + 1) (by omega) (fun s hs hst => hmin s (by omega) hst) (by omega)

/-- C5: the readiness loop probes at consecutive whole seconds (the
sleep between probes is the constant 1000 ms; no backoff), succeeds
at the first second `t ≤ 30` whose probe reports healthy — so a
process healthy from second 5 succeeds — and when no probe within the
30-second window reports healthy it fails, only after the window is
exhausted, with the error naming the 30-second timeout. -/
theorem readinessPoll_first_healthy (health : Nat → Bool) :
    (∀ t, t ≤ 30 → health t = true → (∀ s, s < t → health s = false) →
      readinessPoll health = .ok t) ∧
      ((∀ s, s ≤ 30 → health s = false) → readinessPoll health = .error timeout30Msg) ∧
      ∃ a b, timeout30Msg = a ++ "30 seconds" ++ b := by
  refine ⟨?_, ?_, "FastAPI server failed to start within ",
    ". Check logs above for errors.", by decide⟩
  · intro t ht hh hmin
    exact pollFrom_ok_first health t 32 0 (Nat.zero_le t) ht hh
      (fun s _ hst => hmin s hst) (by omega)
  · intro h
    exact pollFrom_error_of_never health 32 0 (fun s _ hs30 => h s hs30)

/-- C5 witness: a probe healthy from second 5 onwards succeeds at
second 5; a probe that never reports healthy ends with the timeout
error. -/
theorem readinessPoll_first_healthy_witness :
    readinessPoll healthAfter5 = .ok 5 ∧
      readinessPoll (fun _ => false) = .error timeout30Msg :=
  ⟨(readinessPoll_first_healthy healthAfter5).1 5 (by omega) (by decide)
      (fun s hs => by simp only [healthAfter5, decide_eq_false_iff_not]; omega),
    (readinessPoll_first_healthy (fun _ => false)).2.1 (fun s _ => rfl)⟩

/-! ## C2 — readiness timeout and the child handle -/

/-- C2 counterexample: a start that fails by readiness timeout leaves
the child handle held (pid 42 is still stored), whereas the state
after a completed `stop()` holds none — so the state after the error
is not the post-`stop()` state. -/
theorem start_timeout_keeps_handle :
    (start_fastapi_server EmbeddedPythonEngine.new "ce" envNeverHealthy).1 =
        .error timeout30Msg ∧
      (start_fastapi_server EmbeddedPythonEngine.new "ce" envNeverHealthy).2.process =
        some 42 ∧
      (stop (start_fastapi_server EmbeddedPythonEngine.new "ce" envNeverHealthy).2
          true).2.process = none :=
  ⟨rfl, rfl, rfl⟩

/-- C2 (amended): every start that fails by readiness timeout (spawn
succeeded, no probe within the window healthy) returns the timeout
error with the child handle still held — the Supervisor does not
return to the post-`stop()` state; a subsequent `stop()` does clear
the handle. -/
theorem start_timeout_holds_handle (s : EmbeddedPythonEngine) (dir : String)
    (env : StartEnv) (pid : Nat) (hmain : env.mainPyExists = true)
    (hspawn : env.spawnResult = .ok pid) (hhealth : ∀ t, t ≤ 30 → env.health t = false) :
    (start_fastapi_server s dir env).1 = .error timeout30Msg ∧
      (start_fastapi_server s dir env).2.process = some pid ∧
      (stop (start_fastapi_server s dir env).2 true).2.process = none := by
  have hp : readinessPoll env.health = .error timeout30Msg :=
    pollFrom_error_of_never env.health 32 0 (fun t _ ht30 => hhealth t ht30)
  unfold start_fastapi_server
  rw [hmain]
  simp only [if_true]
  rw [hspawn, hp]
  exact ⟨rfl, rfl, rfl⟩

/-- C2 witness: the amended statement evaluated on the
never-healthy environment. -/
theorem start_timeout_holds_handle_witness :
    (start_fastapi_server EmbeddedPythonEngine.new "ce" envNeverHealthy).1 =
        .error timeout30Msg ∧
      (start_fastapi_server EmbeddedPythonEngine.new "ce" envNeverHealthy).2.process =
        some 42 ∧
      (stop (start_fastapi_server EmbeddedPythonEngine.new "ce" envNeverHealthy).2
          true).2.process = none :=
  start_timeout_holds_handle EmbeddedPythonEngine.new "ce" envNeverHealthy 42
    rfl rfl (fun _ _ => rfl)

/-! ## C3 — candidate resolution -/

/-- C3 counterexample: with the working directory unavailable (no
grandparent) and a matching candidate under the executable directory,
`find_compute_engine_dir` returns none — the unavailable candidate
aborts the whole resolution instead of being skipped. -/
theorem find_compute_engine_dir_aborts :
    entryOk fsProdOnly "/app/compute_engine" = true ∧
      find_compute_engine_dir none (some "/app") fsProdOnly = none :=
  ⟨rfl, rfl⟩

/-- C3 (amended): the candidate loop of `compute.rs` behaves as the
claim states — an unavailable (`None`) candidate is skipped and the
search continues, and the first available candidate containing
`main.py` wins; but `find_compute_engine_dir` in `main.rs` aborts the
entire resolution when the working directory is unavailable,
regardless of the remaining candidates. -/
theorem resolveCandidates_first_match :
    (∀ (fs : String → Bool) rest,
        resolveCandidates fs (none :: rest) = resolveCandidates fs rest) ∧
      (∀ (fs : String → Bool) p rest, entryOk fs p = true →
        resolveCandidates fs (some p :: rest) = some p) ∧
      (∀ (fs : String → Bool) p rest, entryOk fs p = false →
        resolveCandidates fs (some p :: rest) = resolveCandidates fs rest) ∧
      ∀ (exeDir : Option String) (fs : String → Bool),
        find_compute_engine_dir none exeDir fs = none := by
  refine ⟨fun fs rest => rfl, ?_, ?_, fun exeDir fs => rfl⟩
  · intro fs p rest h
    show (if entryOk fs p = true then some p else resolveCandidates fs rest) = _
    rw [h]
    simp
  · intro fs p rest h
    show (if entryOk fs p = true then some p else resolveCandidates fs rest) = _
    rw [h]
    simp

/-- C3 witness: the spec's example — candidates `[A(missing),
B(exists+entry), C(exists+entry)]` resolve to `B`; and the aborting
resolver evaluated at an unavailable working directory. -/
theorem resolveCandidates_first_match_witness :
    resolveCandidates fsBC [some "/A", some "/B", some "/C"] = some "/B" ∧
      find_compute_engine_dir none (some "/app") fsBC = none := by
  constructor
  · rw [resolveCandidates_first_match.2.2.1 fsBC "/A" _ (by decide)]
    exact resolveCandidates_first_match.2.1 fsBC "/B" _ (by decide)
  · exact resolveCandidates_first_match.2.2.2 (some "/app") fsBC

/-! ## C9 — idempotent upsert, keyed on uuid -/

/-- Unfolding `countUuid` over a cons cell. -/
theorem countUuid_cons (r : Workspace) (l : List Workspace) (u : String) :
    countUuid (r :: l) u = (if r.uuid == u then 1 else 0) + countUuid l u := by
  unfold countUuid
  cases h : r.uuid == u <;> simp [List.filter_cons, h, Nat.add_comm]

/-- `countUuid` distributes over append. -/
theorem countUuid_append (l1 l2 : List Workspace) (u : String) :
    countUuid (l1 ++ l2) u = countUuid l1 u + countUuid l2 u := by
  unfold countUuid
  simp [List.filter_append]

/-- The `DO UPDATE` map keeps each row's uuid, hence the uuid column
of the table. -/
theorem update_map_uuid (table : List Workspace) (w : Workspace) :
    (table.map fun r => if r.uuid == w.uuid then applyWorkspaceUpdate r w else r).map
        Workspace.uuid = table.map Workspace.uuid := by
  induction table with
  | nil => rfl
  | cons r rest ih =>
    simp only [List.map_cons, ih, List.cons.injEq, and_true]
    cases h : r.uuid == w.uuid <;> simp [h, applyWorkspaceUpdate]

/-- The `DO UPDATE` map leaves every uuid count unchanged. -/
theorem countUuid_update (table : List Workspace) (w : Workspace) (u : String) :
    countUuid
        (table.map fun r => if r.uuid == w.uuid then applyWorkspaceUpdate r w else r) u =
      countUuid table u := by
  induction table with
  | nil => rfl
  | cons r rest ih =>
    simp only [List.map_cons]
    rw [countUuid_cons, countUuid_cons, ih]
    cases h : r.uuid == w.uuid <;> simp [h, applyWorkspaceUpdate]

/-- A table with no row of uuid `u` counts zero. -/
theorem countUuid_eq_zero (table : List Workspace) (u : String)
    (h : table.any (fun r => r.uuid == u) = false) : countUuid table u = 0 := by
  induction table with
  | nil => rfl
  | cons r rest ih =>
    simp only [List.any_cons, Bool.or_eq_false_iff] at h
    rw [countUuid_cons, h.1, ih h.2]
    simp

/-- A uuid-unique table containing some row of uuid `u` counts exactly
one. -/
theorem countUuid_eq_one (table : List Workspace) (u : String) (hnd : uuidNodup table)
    (h : table.any (fun r => r.uuid == u) = true) : countUuid table u = 1 := by
  induction table with
  | nil => simp at h
  | cons r rest ih =>
    rw [countUuid_cons]
    simp only [List.any_cons, Bool.or_eq_true] at h
    unfold uuidNodup at hnd
    simp only [List.map_cons, List.nodup_cons] at hnd
    cases hb : r.uuid == u
    · simp only [Bool.false_eq_true, if_false]
      rcases h with h | h
      · rw [hb] at h
        cases h
      · rw [ih hnd.2 h]
    · have hu : r.uuid = u := by simpa using hb
      have hz : rest.any (fun r2 => r2.uuid == u) = false := by
        cases hany : rest.any (fun r2 => r2.uuid == u)
        · rfl
        · simp only [List.any_eq_true] at hany
          obtain ⟨x, hx, hxu⟩ := hany
          have : u ∈ rest.map Workspace.uuid :=
            List.mem_map.mpr ⟨x, hx, by simpa using hxu⟩
          rw [hu] at hnd
          exact absurd this hnd.1
      rw [countUuid_eq_zero rest u hz]
      simp

/-- A table counting one row of uuid `u` has a row of uuid `u`. -/
theorem any_of_countUuid_one (table : List Workspace) (u : String)
    (h : countUuid table u = 1) : table.any (fun r => r.uuid == u) = true := by
  cases hany : table.any (fun r => r.uuid == u)
  · rw [countUuid_eq_zero table u hany] at h
    cases h
  · rfl

/-- C9: upsert is keyed on uuid and idempotent — starting from a
uuid-unique table, a successful upsert of `w` leaves exactly one row
with `w`'s uuid, and a following upsert of any record `w2` with the
same uuid (its numeric id and other fields arbitrary) succeeds,
updates that row's fields in place, and leaves the row count and the
single-row-per-uuid property intact. -/
theorem upsert_workspace_idempotent (table : List Workspace) (w w2 : Workspace)
    (hnd : uuidNodup table) (huuid : w2.uuid = w.uuid) (t1 : List Workspace)
    (h1 : upsert_workspace table w = .ok t1) :
    countUuid t1 w.uuid = 1 ∧
      ∃ t2, upsert_workspace t1 w2 = .ok t2 ∧ countUuid t2 w.uuid = 1 ∧
        t2.length = t1.length ∧ ∀ r ∈ t2, r.uuid = w.uuid → r.name = w2.name := by
  have main : countUuid t1 w.uuid = 1 ∧ uuidNodup t1 := by
    unfold upsert_workspace at h1
    cases hany : table.any (fun r => r.uuid == w.uuid) with
    | true =>
      rw [hany] at h1
      simp only [if_true] at h1
      cases h1
      refine ⟨?_, ?_⟩
      · rw [countUuid_update, countUuid_eq_one table w.uuid hnd hany]
      · unfold uuidNodup
        rw [update_map_uuid]
        exact hnd
    | false =>
      rw [hany] at h1
      simp only [Bool.false_eq_true, if_false] at h1
      cases hid : table.any (fun r => r.id == w.id) with
      | true =>
        rw [hid] at h1
        simp only [if_true] at h1
        cases h1
      | false =>
        rw [hid] at h1
        simp only [Bool.false_eq_true, if_false] at h1
        cases h1
        have hnotin : w.uuid ∉ table.map Workspace.uuid := by
          intro hmem
          obtain ⟨x, hx, hxu⟩ := List.mem_map.mp hmem
          have : table.any (fun r => r.uuid == w.uuid) = true :=
            List.any_eq_true.mpr ⟨x, hx, by simpa using hxu⟩
          rw [hany] at this
          cases this
        refine ⟨?_, ?_⟩
        · rw [countUuid_append, countUuid_eq_zero table w.uuid hany, countUuid_cons]
          simp [countUuid]
        · unfold uuidNodup
          rw [List.map_append]
          simp only [List.map_cons, List.map_nil]
          rw [← List.concat_eq_append]
          exact List.Nodup.concat hnotin hnd
  obtain ⟨hcount, hnd1⟩ := main
  refine ⟨hcount, ?_⟩
  have hany1 : t1.any (fun r => r.uuid == w2.uuid) = true := by
    rw [huuid]
    exact any_of_countUuid_one t1 w.uuid hcount
  refine ⟨t1.map fun r => if r.uuid == w2.uuid then applyWorkspaceUpdate r w2 else r,
    ?_, ?_, ?_, ?_⟩
  · unfold upsert_workspace
    rw [hany1]
    simp
  · rw [countUuid_update, hcount]
  · exact List.length_map t1 _
  · intro r hr hru
    obtain ⟨r0, hr0, hr0eq⟩ := List.mem_map.mp hr
    cases hb : r0.uuid == w2.uuid
    · rw [hb] at hr0eq
      simp only [Bool.false_eq_true, if_false] at hr0eq
      have hne : r0.uuid ≠ w2.uuid := by simpa using hb
      rw [huuid] at hne
      rw [← hr0eq] at hru
      exact absurd hru hne
    · rw [hb] at hr0eq
      simp at hr0eq
      rw [← hr0eq]
      rfl

/-- C9 witness: importing `wsA` into an empty table and then
re-importing the same entity as `wsB` (same uuid `w1`, different id,
new name) leaves one row with uuid `w1` carrying the new name. -/
theorem upsert_workspace_idempotent_witness :
    countUuid [wsA] wsA.uuid = 1 ∧
      ∃ t2, upsert_workspace [wsA] wsB = .ok t2 ∧ countUuid t2 wsA.uuid = 1 ∧
        t2.length = ([wsA] : List Workspace).length ∧
        ∀ r ∈ t2, r.uuid = wsA.uuid → r.name = wsB.name :=
  upsert_workspace_idempotent [] wsA wsB (by decide) rfl [wsA] rfl

/-! ## C10 — the frame of a conflicting upsert -/

/-- C10: a workspace upsert that conflicts on uuid rewrites the table
row-by-row, leaving every row's `id`, `owner_id` and `created_at`
unchanged, leaving non-matching rows entirely unchanged, and
overwriting exactly `name`, `description`, `updated_at`, `is_active`,
`sync_status`, `last_synced_at` of the matching row; a conflicting
project upsert additionally leaves `workspace_id` unchanged. -/
theorem upsert_preserves_keys :
    (∀ (table : List Workspace) (w : Workspace) (t' : List Workspace),
      table.any (fun r => r.uuid == w.uuid) = true →
      upsert_workspace table w = .ok t' →
      t'.length = table.length ∧
        ∀ i (hi : i < table.length) (hi' : i < t'.length),
          (t'[i].id = table[i].id ∧
            t'[i].owner_id = table[i].owner_id ∧
            t'[i].created_at = table[i].created_at) ∧
          (table[i].uuid ≠ w.uuid → t'[i] = table[i]) ∧
          (table[i].uuid = w.uuid →
            t'[i].name = w.name ∧
            t'[i].description = w.description ∧
            t'[i].updated_at = w.updated_at ∧
            t'[i].is_active = w.is_active ∧
            t'[i].sync_status = w.sync_status ∧
            t'[i].last_synced_at = w.last_synced_at)) ∧
      ∀ (table : List Project) (p : Project) (t' : List Project),
        table.any (fun r => r.uuid == p.uuid) = true →
        upsert_project table p = .ok t' →
        t'.length = table.length ∧
          ∀ i (hi : i < table.length) (hi' : i < t'.length),
            (t'[i].id = table[i].id ∧
              t'[i].workspace_id = table[i].workspace_id ∧
              t'[i].owner_id = table[i].owner_id ∧
              t'[i].created_at = table[i].created_at) ∧
            (table[i].uuid ≠ p.uuid → t'[i] = table[i]) ∧
            (table[i].uuid = p.uuid →
              t'[i].name = p.name ∧
              t'[i].description = p.description ∧
              t'[i].updated_at = p.updated_at ∧
              t'[i].is_active = p.is_active ∧
              t'[i].sync_status = p.sync_status ∧
              t'[i].last_synced_at = p.last_synced_at) := by
  constructor
  · intro table w t' hany h
    unfold upsert_workspace at h
    rw [hany] at h
    simp only [if_true] at h
    cases h
    refine ⟨List.length_map table _, ?_⟩
    intro i hi hi'
    simp only [List.getElem_map]
    cases hb : table[i].uuid == w.uuid
    · have hne : table[i].uuid ≠ w.uuid := by simpa using hb
      simp [hb, hne]
    · have he : table[i].uuid = w.uuid := by simpa using hb
      simp [hb, he, applyWorkspaceUpdate]
  · intro table p t' hany h
    unfold upsert_project at h
    rw [hany] at h
    simp only [if_true] at h
    cases h
    refine ⟨List.length_map table _, ?_⟩
    intro i hi hi'
    simp only [List.getElem_map]
    cases hb : table[i].uuid == p.uuid
    · have hne : table[i].uuid ≠ p.uuid := by simpa using hb
      simp [hb, hne]
    · have he : table[i].uuid = p.uuid := by simpa using hb
      simp [hb, he, applyProjectUpdate]

/-- C10 witness: the frame evaluated on singleton tables hit by a
uuid-conflicting upsert with a different numeric id. -/
theorem upsert_preserves_keys_witness :
    ([applyWorkspaceUpdate wsA wsB].length = ([wsA] : List Workspace).length ∧
      [applyWorkspaceUpdate wsA wsB][0].id = [wsA][0].id) ∧
      ([applyProjectUpdate prA prB].length = ([prA] : List Project).length ∧
        [applyProjectUpdate prA prB][0].workspace_id = [prA][0].workspace_id) := by
  have hw := upsert_preserves_keys.1 [wsA] wsB [applyWorkspaceUpdate wsA wsB] rfl rfl
  have hp := upsert_preserves_keys.2 [prA] prB [applyProjectUpdate prA prB] rfl rfl
  exact ⟨⟨hw.1, ((hw.2 0 (by decide) (by decide)).1).1⟩,
    ⟨hp.1, ((hp.2 0 (by decide) (by decide)).1).2.1⟩⟩

end Novem
